import Mathlib

/-!
Shallow embedding of the fastapi-task-manager backend (`src/app`):
the data model (`models.py`, `schemas.py`), the authentication layer
(`auth.py`, `security.py`), the task CRUD handlers (`main.py`) and the
profile handlers (`routers/users.py`), with theorems checking the
claims of the specification against these definitions.

Conventions: timestamps are `Nat`; the database is a Lean list of rows;
`session.exec(select(T).where(...)).first()` is `List.find?`;
`.all()` is `List.filter`; raising `HTTPException` is `Except.error`.
External primitives (the bcrypt hasher, the JWT codec) are parameters or
abstract outcomes, since their code is not part of the repository.
-/

namespace TaskManager

/-- `PriorityLevel` str-enum (`models.py` lines 9-13). -/
inductive PriorityLevel where
  | low
  | medium
  | high
  | urgent
deriving DecidableEq, Repr

/-- `User` table model (`models.py` lines 16-28).  Its declared columns are
exactly `id`, `username`, `email`, `hashed_password`; no profile columns
are declared on the table. -/
structure User where
  id : Nat
  username : String
  email : String
  hashed_password : String
deriving DecidableEq, Repr

/-- `Task` table model (`models.py` lines 32-53). -/
structure Task where
  id : Nat
  title : String
  description : Option String
  is_completed : Bool
  priority : PriorityLevel
  due_date : Option Nat
  category : Option String
  created_at : Nat
  updated_at : Nat
  owner_id : Nat
deriving DecidableEq, Repr

/-- An `HTTPException`: status code, detail message, and the optional
`WWW-Authenticate` header value. -/
structure HTTPError where
  status_code : Nat
  detail : String
  www_authenticate : Option String
deriving DecidableEq, Repr

/-- Python `str.lower()`: character-wise lowercasing. -/
def lower (s : String) : String :=
  String.mk (s.data.map Char.toLower)

/-- Python `str.strip()`: drop whitespace from both ends. -/
def strip (s : String) : String :=
  String.mk (((s.data.dropWhile Char.isWhitespace).reverse.dropWhile Char.isWhitespace).reverse)

/-- Python `len(s)`: the number of characters. -/
def strLen (s : String) : Nat :=
  s.data.length

/-- `Task.validate_title` (`models.py` lines 55-63): the title rules declared
on the model — reject empty-after-strip titles and titles longer than 200
characters, and store the stripped title.  `Task` is a SQLModel `table=True`
model, so this `field_validator` is never invoked by the handler paths: not
at direct `Task(...)` construction and not on attribute assignment. -/
def validate_title (value : String) : Except String String :=
  if strLen (strip value) == 0 then Except.error "Title cannot be empty"
  else if strLen value > 200 then Except.error "Title must be less than 200 characters"
  else Except.ok (strip value)

/-- Request body accepted by the `TaskCreate` schema (`schemas.py` lines
17-22): only `title` is required; an absent `priority` takes the schema
default `PriorityLevel.MEDIUM` (here: `none` means the field was absent and
the default applies).  The schema has no `owner_id` and no `is_completed`
field, so a caller cannot supply either. -/
structure TaskCreateBody where
  title : String
  description : Option String := none
  priority : Option PriorityLevel := none
  due_date : Option Nat := none
  category : Option String := none
deriving DecidableEq, Repr

/-- `TaskUpdate` schema (`schemas.py` lines 40-46) after
`model_dump(exclude_unset=True)`: the outer `Option` is `some` exactly for
the fields the request explicitly supplied.  For the nullable columns
(`description`, `due_date`, `category`) the supplied value is itself
optional.  The schema has no `owner_id`, `id` or `created_at` field. -/
structure TaskUpdate where
  title : Option String := none
  description : Option (Option String) := none
  is_completed : Option Bool := none
  priority : Option PriorityLevel := none
  due_date : Option (Option Nat) := none
  category : Option (Option String) := none
deriving DecidableEq, Repr

/-- The `setattr` loop of `update_task` (`main.py` lines 183-188): each
supplied field overwrites the row attribute, then `updated_at` is set to the
current time.  No validation runs on assignment, and no field outside the
`TaskUpdate` schema can be touched. -/
def apply_update (t : Task) (u : TaskUpdate) (now : Nat) : Task :=
  { t with
    title := u.title.getD t.title
    description := u.description.getD t.description
    is_completed := u.is_completed.getD t.is_completed
    priority := u.priority.getD t.priority
    due_date := u.due_date.getD t.due_date
    category := u.category.getD t.category
    updated_at := now }

/-- The uniform 404 raised by both `update_task` and `delete_task`
(`main.py` lines 161-162 and 180-181) for a missing row, whether the id does
not exist at all or the row belongs to another owner. -/
def taskNotFound : HTTPError :=
  { status_code := 404, detail := "Task not found or unauthorized access", www_authenticate := none }

/-- `create_task` handler (`main.py` lines 91-108): builds a `Task` from the
`TaskCreate` body with `owner_id` taken from the authenticated user and
inserts the row.  `is_completed`, `created_at` and `updated_at` take the
model defaults (`False`, current time).  `Task(...)` is a SQLModel
`table=True` model whose field validators do not run at direct construction,
so the raw, unstripped title is stored unchecked. -/
def create_task (db : List Task) (body : TaskCreateBody) (uid now newId : Nat) :
    List Task × Task :=
  let t : Task :=
    { id := newId
      title := body.title
      description := body.description
      is_completed := false
      priority := body.priority.getD PriorityLevel.medium
      due_date := body.due_date
      category := body.category
      created_at := now
      updated_at := now
      owner_id := uid }
  (db ++ [t], t)

/-- `read_tasks` handler (`main.py` lines 140-148):
`select(Task).where(Task.owner_id == current_user.id)`. -/
def read_tasks (db : List Task) (uid : Nat) : List Task :=
  db.filter (fun t => t.owner_id == uid)

/-- `delete_task` handler (`main.py` lines 151-166): the lookup query itself
carries the owner filter (`Task.id == task_id, Task.owner_id == uid`); a
missing row raises the uniform 404 before any mutation. -/
def delete_task (db : List Task) (task_id uid : Nat) : Except HTTPError (List Task) :=
  match db.find? (fun t => t.id == task_id && t.owner_id == uid) with
  | none => Except.error taskNotFound
  | some t => Except.ok (db.filter (fun x => !(x.id == t.id)))

/-- `update_task` handler (`main.py` lines 169-193): the owner-filtered
lookup, then the `setattr` loop (`apply_update`) on the found row, committed
in place.  A missing row raises the uniform 404 before any mutation. -/
def update_task (db : List Task) (task_id uid : Nat) (u : TaskUpdate) (now : Nat) :
    Except HTTPError (List Task × Task) :=
  match db.find? (fun t => t.id == task_id && t.owner_id == uid) with
  | none => Except.error taskNotFound
  | some t =>
      let t2 := apply_update t u now
      Except.ok (db.map (fun x => if x.id == t.id then t2 else x), t2)

/-- The aggregate returned by `get_task_stats`. -/
structure TaskStats where
  total : Nat
  completed : Nat
  pending : Nat
  urgent : Nat
  high : Nat
  medium : Nat
  low : Nat
deriving DecidableEq, Repr

/-- `get_task_stats` handler (`main.py` lines 111-137): a pure aggregation
over the current tasks of the owner; it performs no insert, update or delete. -/
def get_task_stats (db : List Task) (uid : Nat) : TaskStats :=
  let tasks := db.filter (fun t => t.owner_id == uid)
  let completed := (tasks.filter (fun t => t.is_completed)).length
  { total := tasks.length
    completed := completed
    pending := tasks.length - completed
    urgent := (tasks.filter (fun t => t.priority == PriorityLevel.urgent)).length
    high := (tasks.filter (fun t => t.priority == PriorityLevel.high)).length
    medium := (tasks.filter (fun t => t.priority == PriorityLevel.medium)).length
    low := (tasks.filter (fun t => t.priority == PriorityLevel.low)).length }

/-- `UserCreate` registration schema (`schemas.py` lines 72-85), after its
password validator has accepted the password. -/
structure UserCreate where
  username : String
  email : String
  password : String
deriving DecidableEq, Repr

/-- The response body of a successful registration (`auth.py` lines 60-63). -/
structure RegisterResponse where
  message : String
  username : String
deriving DecidableEq, Repr

/-- The 400 raised when the username check fails (`auth.py` lines 34-37). -/
def usernameTakenError : HTTPError :=
  { status_code := 400
    detail := "This username is already taken. Please choose another."
    www_authenticate := none }

/-- The 400 raised when the email check fails (`auth.py` lines 42-45). -/
def emailTakenError : HTTPError :=
  { status_code := 400
    detail := "This email address is already registered."
    www_authenticate := none }

/-- `register_user` handler (`auth.py` lines 21-63): lowercase the username,
check the username (against the lowercased form), then check the email
(exact comparison), then persist a new `User` with the lowercased username
and the hashed password.  The `hash` parameter stands for
`security.hash_password`, an external bcrypt primitive. -/
def register_user (db : List User) (inp : UserCreate) (hash : String → String) (newId : Nat) :
    Except HTTPError (List User × RegisterResponse) :=
  let username_lower := lower inp.username
  if (db.find? (fun u => u.username == username_lower)).isSome then
    Except.error usernameTakenError
  else if (db.find? (fun u => u.email == inp.email)).isSome then
    Except.error emailTakenError
  else
    let new_user : User :=
      { id := newId
        username := username_lower
        email := inp.email
        hashed_password := hash inp.password }
    Except.ok (db ++ [new_user],
      { message := "User registered successfully", username := new_user.username })

/-- The 401 raised by the login endpoint for any credential mismatch
(`auth.py` lines 83-87). -/
def loginError : HTTPError :=
  { status_code := 401
    detail := "Incorrect username or password"
    www_authenticate := some "Bearer" }

/-- The response body of a successful login (`auth.py` line 92). -/
structure TokenResponse where
  access_token : String
  token_type : String
deriving DecidableEq, Repr

/-- `login_for_access_token` handler (`auth.py` lines 66-92): lowercase the
submitted username, look the user up, verify the password; the single
`if not user or not verify_password(...)` branch raises one identical 401
for an unknown username and for a wrong password.  `verify` stands for
`security.verify_password` and `mkToken` for `security.create_access_token`,
both external primitives. -/
def login_for_access_token (db : List User) (username password : String)
    (verify : String → String → Bool) (mkToken : String → String) :
    Except HTTPError TokenResponse :=
  let username_lower := lower username
  match db.find? (fun u => u.username == username_lower) with
  | none => Except.error loginError
  | some user =>
      if verify password user.hashed_password then
        Except.ok { access_token := mkToken user.username, token_type := "bearer" }
      else Except.error loginError

/-- Outcome of `jwt.decode(token, SECRET_KEY, algorithms=[ALGORITHM])` on a
presented bearer token (`security.py` line 78).  The library raises
`JWTError` for a bad signature, a malformed payload and a passed expiry;
otherwise it yields a payload whose `sub` claim may be absent. -/
inductive DecodeResult where
  | badSignature
  | malformedPayload
  | expired
  | payload (sub : Option String)
deriving DecidableEq, Repr

/-- The single `credentials_exception` of `get_current_user`
(`security.py` lines 70-74), raised for every resolution failure. -/
def credentials_exception : HTTPError :=
  { status_code := 401
    detail := "Could not validate credentials"
    www_authenticate := some "Bearer" }

/-- `get_current_user` (`security.py` lines 62-94): decode the token
(`JWTError` of any cause is caught by one `except` clause), require a `sub`
claim, look the user up by username; every failure raises the one
`credentials_exception`. -/
def get_current_user (decoded : DecodeResult) (db : List User) : Except HTTPError User :=
  match decoded with
  | DecodeResult.badSignature => Except.error credentials_exception
  | DecodeResult.malformedPayload => Except.error credentials_exception
  | DecodeResult.expired => Except.error credentials_exception
  | DecodeResult.payload none => Except.error credentials_exception
  | DecodeResult.payload (some username) =>
      match db.find? (fun u => u.username == username) with
      | none => Except.error credentials_exception
      | some user => Except.ok user

/-- `UserUpdate` profile schema (`schemas.py` lines 65-69) after
`model_dump(exclude_unset=True)`: `some` exactly for the supplied fields. -/
structure UserUpdate where
  full_name : Option String := none
  job_title : Option String := none
  bio : Option String := none
  website : Option String := none
deriving DecidableEq, Repr

/-- `UserRead` response schema (`schemas.py` lines 54-62). -/
structure UserRead where
  id : Nat
  username : String
  email : String
  full_name : Option String
  job_title : Option String
  bio : Option String
  profile_image : Option String
  website : Option String
deriving DecidableEq, Repr

/-- Serialization of a stored `User` row through the `UserRead` response
schema (`response_model=UserRead`).  The `User` table model declares only
the columns `id`, `username`, `email`, `hashed_password`
(`models.py` lines 16-28): a freshly fetched row carries no profile
attribute, so each `UserRead` profile field falls back to its schema
default `None`. -/
def userReadOfUser (u : User) : UserRead :=
  { id := u.id
    username := u.username
    email := u.email
    full_name := none
    job_title := none
    bio := none
    profile_image := none
    website := none }

/-- `read_user_me` handler (`routers/users.py` lines 17-22): returns the
resolved user row through the `UserRead` schema. -/
def read_user_me (u : User) : UserRead :=
  userReadOfUser u

/-- `update_user_profile` handler (`routers/users.py` lines 25-41): runs
`setattr(current_user, key, value)` for each supplied field and commits.
None of the `UserUpdate` keys (`full_name`, `job_title`, `bio`, `website`)
is a declared column of the `User` table model, so each assignment attaches
only a transient object attribute and the commit writes no column: the
stored rows keep exactly their declared column values. -/
def update_user_profile (db : List User) (uid : Nat) (upd : UserUpdate) : List User :=
  db.map (fun u =>
    if u.id == uid then
      { id := u.id, username := u.username, email := u.email,
        hashed_password := u.hashed_password }
    else u)

/-- A concrete task row used to instantiate the theorems. -/
def aliceTask : Task :=
  { id := 1
    title := "Buy milk"
    description := none
    is_completed := false
    priority := PriorityLevel.medium
    due_date := none
    category := none
    created_at := 0
    updated_at := 0
    owner_id := 1 }

/-- A concrete user row used to instantiate the theorems. -/
def aliceUser : User :=
  { id := 1, username := "alice", email := "a@x.com", hashed_password := "hp" }

/- ------------------------------------------------------------------ -/
/- Helper lemmas about `List.find?`, shared by several theorems.      -/
/- ------------------------------------------------------------------ -/

theorem find?_none_of_all_false {α : Type} {p : α → Bool} {l : List α}
    (h : ∀ x ∈ l, p x = false) : l.find? p = none :=
  List.find?_eq_none.mpr fun x hx => by simp [h x hx]

theorem find?_eq_some_of_unique {α : Type} (p : α → Bool) :
    ∀ (l : List α) (a : α), a ∈ l → p a = true →
      (∀ x ∈ l, p x = true → x = a) → l.find? p = some a := by
  intro l
  induction l with
  | nil => intro a ha _ _; cases ha
  | cons b bs ih =>
    intro a ha hpa huniq
    by_cases hb : p b = true
    · have hba : b = a := huniq b (List.mem_cons_self b bs) hb
      subst hba
      simp [List.find?_cons, hb]
    · have hbf : p b = false := by
        cases hpb : p b
        · rfl
        · exact absurd hpb hb
      have ha2 : a ∈ bs := by
        rcases List.mem_cons.mp ha with h1 | h1
        · exact absurd (h1 ▸ hpa) hb
        · exact h1
      simp only [List.find?_cons, hbf]
      exact ih a ha2 hpa fun x hx hpx => huniq x (List.mem_cons_of_mem b hx) hpx

/-- Each task has exactly one of the four priority levels, so the four
priority-filtered counts partition a task list. -/
theorem priority_counts_partition (l : List Task) :
    (l.filter (fun t => t.priority == PriorityLevel.urgent)).length +
    (l.filter (fun t => t.priority == PriorityLevel.high)).length +
    (l.filter (fun t => t.priority == PriorityLevel.medium)).length +
    (l.filter (fun t => t.priority == PriorityLevel.low)).length = l.length := by
  induction l with
  | nil => rfl
  | cons t ts ih =>
    simp only [List.filter_cons]
    cases h : t.priority <;> simp [h] <;> omega

/- ------------------------------------------------------------------ -/
/- Claim theorems.                                                    -/
/- ------------------------------------------------------------------ -/

/-- C1: a task `t` owned by user `A` (here: with `t.owner_id ≠ B`) is never
returned by the list operation for an acting user `B`, and the update and
delete on `t.id` fail with exactly the `taskNotFound` failure that a wholly
nonexistent id produces — the owner filter sits in the lookup query itself,
and the error is raised before any mutation, so the state is unchanged. -/
theorem ownership_isolation (db : List Task) (t : Task) (B : Nat) (u : TaskUpdate)
    (now : Nat) (ht : t ∈ db) (hB : t.owner_id ≠ B)
    (hids : ∀ t1 ∈ db, ∀ t2 ∈ db, t1.id = t2.id → t1 = t2)
    (freshId : Nat) (hfresh : ∀ x ∈ db, x.id ≠ freshId) :
    t ∉ read_tasks db B ∧
    update_task db t.id B u now = Except.error taskNotFound ∧
    delete_task db t.id B = Except.error taskNotFound ∧
    update_task db freshId B u now = Except.error taskNotFound ∧
    delete_task db freshId B = Except.error taskNotFound := by
  have key : ∀ x ∈ db, (x.id == t.id && x.owner_id == B) = false := by
    intro x hx
    by_cases hxid : x.id = t.id
    · have hxt : x = t := hids x hx t ht hxid
      subst hxt
      simp [hB]
    · simp [hxid]
  have hnone := find?_none_of_all_false key
  have keyf : ∀ x ∈ db, (x.id == freshId && x.owner_id == B) = false := by
    intro x hx
    simp [hfresh x hx]
  have hnonef := find?_none_of_all_false keyf
  refine ⟨?_, ?_, ?_, ?_, ?_⟩
  · simp [read_tasks, List.mem_filter, hB]
  · simp [update_task, hnone]
  · simp [delete_task, hnone]
  · simp [update_task, hnonef]
  · simp [delete_task, hnonef]

/-- Witness for C1 at a concrete state: one task owned by user 1, acting
user 2, fresh id 99. -/
theorem ownership_isolation_witness :
    aliceTask ∉ read_tasks [aliceTask] 2 ∧
    update_task [aliceTask] aliceTask.id 2 {} 5 = Except.error taskNotFound ∧
    delete_task [aliceTask] aliceTask.id 2 = Except.error taskNotFound ∧
    update_task [aliceTask] 99 2 {} 5 = Except.error taskNotFound ∧
    delete_task [aliceTask] 99 2 = Except.error taskNotFound :=
  ownership_isolation [aliceTask] aliceTask 2 {} 5 (by decide) (by decide)
    (by decide) 99 (by decide)

/-- C2: a successful update on an owned task changes exactly the supplied
fields plus `updated_at` (set to the current time regardless of which fields
changed); every unsupplied field keeps its prior value, neither the owner
reference nor `id`/`created_at` can change (the `TaskUpdate` schema has no
such fields), and the empty partial update changes nothing but
`updated_at`. -/
theorem update_changes_exactly_supplied (db : List Task) (t : Task) (uid : Nat)
    (u : TaskUpdate) (now : Nat)
    (ht : t ∈ db) (hown : t.owner_id = uid)
    (hids : ∀ t1 ∈ db, ∀ t2 ∈ db, t1.id = t2.id → t1 = t2) :
    update_task db t.id uid u now =
      Except.ok (db.map (fun x => if x.id == t.id then apply_update t u now else x),
        apply_update t u now) ∧
    (apply_update t u now).id = t.id ∧
    (apply_update t u now).owner_id = t.owner_id ∧
    (apply_update t u now).created_at = t.created_at ∧
    (apply_update t u now).updated_at = now ∧
    (u.title = none → (apply_update t u now).title = t.title) ∧
    (∀ v, u.title = some v → (apply_update t u now).title = v) ∧
    (u.description = none → (apply_update t u now).description = t.description) ∧
    (∀ v, u.description = some v → (apply_update t u now).description = v) ∧
    (u.is_completed = none → (apply_update t u now).is_completed = t.is_completed) ∧
    (∀ v, u.is_completed = some v → (apply_update t u now).is_completed = v) ∧
    (u.priority = none → (apply_update t u now).priority = t.priority) ∧
    (∀ v, u.priority = some v → (apply_update t u now).priority = v) ∧
    (u.due_date = none → (apply_update t u now).due_date = t.due_date) ∧
    (∀ v, u.due_date = some v → (apply_update t u now).due_date = v) ∧
    (u.category = none → (apply_update t u now).category = t.category) ∧
    (∀ v, u.category = some v → (apply_update t u now).category = v) ∧
    (u = {} → apply_update t u now = { t with updated_at := now }) := by
  have hfind : db.find? (fun x => x.id == t.id && x.owner_id == uid) = some t := by
    apply find?_eq_some_of_unique _ db t ht
    · simp [hown]
    · intro x hx hpx
      have hxid : x.id = t.id := by
        simp only [Bool.and_eq_true, beq_iff_eq] at hpx
        exact hpx.1
      exact hids x hx t ht hxid
  refine ⟨by simp [update_task, hfind], rfl, rfl, rfl, rfl, ?_, ?_, ?_, ?_, ?_, ?_,
    ?_, ?_, ?_, ?_, ?_, ?_, ?_⟩
  · intro h; simp [apply_update, h]
  · intro v h; simp [apply_update, h]
  · intro h; simp [apply_update, h]
  · intro v h; simp [apply_update, h]
  · intro h; simp [apply_update, h]
  · intro v h; simp [apply_update, h]
  · intro h; simp [apply_update, h]
  · intro v h; simp [apply_update, h]
  · intro h; simp [apply_update, h]
  · intro v h; simp [apply_update, h]
  · intro h; simp [apply_update, h]
  · intro v h; simp [apply_update, h]
  · intro h; subst h; rfl

/-- Witness for C2 at a concrete state: the empty partial update on a
one-task database, current time 7. -/
theorem update_changes_exactly_supplied_witness :
    update_task [aliceTask] aliceTask.id 1 {} 7 =
      Except.ok ([aliceTask].map
          (fun x => if x.id == aliceTask.id then apply_update aliceTask {} 7 else x),
        apply_update aliceTask {} 7) ∧
    apply_update aliceTask {} 7 = { aliceTask with updated_at := 7 } := by
  obtain ⟨h1, _, _, _, _, _, _, _, _, _, _, _, _, _, _, _, _, hlast⟩ :=
    update_changes_exactly_supplied [aliceTask] aliceTask 1 {} 7 (by decide) (by decide)
      (by decide)
  exact ⟨h1, hlast rfl⟩

/-- C3: registration lowercases the username, then fails with the
"username taken" failure iff some stored user has the same case-insensitive
username (regardless of the email supplied); that check passing, it fails
with the "email taken" failure iff some stored user has the same email; and
only when both checks pass is a new user persisted, with the lowercased
username and the hashed password.  The hypothesis records the reachable-state
invariant that stored usernames are already lowercase (registration is the
only way a user is created). -/
theorem register_checks (db : List User) (inp : UserCreate) (hash : String → String)
    (newId : Nat) (hlower : ∀ u ∈ db, lower u.username = u.username) :
    (register_user db inp hash newId = Except.error usernameTakenError ↔
      ∃ u ∈ db, lower u.username = lower inp.username) ∧
    ((¬ ∃ u ∈ db, lower u.username = lower inp.username) →
      (register_user db inp hash newId = Except.error emailTakenError ↔
        ∃ u ∈ db, u.email = inp.email)) ∧
    ((¬ ∃ u ∈ db, lower u.username = lower inp.username) →
      (¬ ∃ u ∈ db, u.email = inp.email) →
      register_user db inp hash newId =
        Except.ok (db ++
          [{ id := newId,
             username := lower inp.username,
             email := inp.email,
             hashed_password := hash inp.password }],
          { message := "User registered successfully",
            username := lower inp.username })) := by
  have hiff : (db.find? (fun u => u.username == lower inp.username)).isSome = true ↔
      ∃ u ∈ db, lower u.username = lower inp.username := by
    rw [List.find?_isSome]
    constructor
    · rintro ⟨u, hu, hp⟩
      have he : u.username = lower inp.username := by simpa using hp
      exact ⟨u, hu, (hlower u hu).trans he⟩
    · rintro ⟨u, hu, hl⟩
      exact ⟨u, hu, by simpa using (hlower u hu).symm.trans hl⟩
  have hemail : (db.find? (fun u => u.email == inp.email)).isSome = true ↔
      ∃ u ∈ db, u.email = inp.email := by
    rw [List.find?_isSome]
    constructor
    · rintro ⟨u, hu, hp⟩
      exact ⟨u, hu, by simpa using hp⟩
    · rintro ⟨u, hu, he⟩
      exact ⟨u, hu, by simpa using he⟩
  by_cases h1 : (db.find? (fun u => u.username == lower inp.username)).isSome = true
  · have hreg : register_user db inp hash newId = Except.error usernameTakenError := by
      simp [register_user, h1]
    exact ⟨⟨fun _ => hiff.mp h1, fun _ => hreg⟩,
      fun hno => absurd (hiff.mp h1) hno,
      fun hno _ => absurd (hiff.mp h1) hno⟩
  · have h1f : (db.find? (fun u => u.username == lower inp.username)).isSome = false := by
      cases hx : (db.find? (fun u => u.username == lower inp.username)).isSome
      · rfl
      · exact absurd hx h1
    by_cases h2 : (db.find? (fun u => u.email == inp.email)).isSome = true
    · have hreg : register_user db inp hash newId = Except.error emailTakenError := by
        simp [register_user, h1f, h2]
      refine ⟨⟨fun habs => ?_, fun hex => absurd (hiff.mpr hex) (by simp [h1f])⟩,
        fun _ => ⟨fun _ => hemail.mp h2, fun _ => hreg⟩,
        fun _ hnoe => absurd (hemail.mp h2) hnoe⟩
      rw [hreg] at habs
      exact absurd habs (by simp [usernameTakenError, emailTakenError])
    · have h2f : (db.find? (fun u => u.email == inp.email)).isSome = false := by
        cases hx : (db.find? (fun u => u.email == inp.email)).isSome
        · rfl
        · exact absurd hx h2
      have hreg : register_user db inp hash newId =
          Except.ok (db ++
            [{ id := newId,
               username := lower inp.username,
               email := inp.email,
               hashed_password := hash inp.password }],
            { message := "User registered successfully",
              username := lower inp.username }) := by
        simp [register_user, h1f, h2f]
      refine ⟨⟨fun habs => ?_, fun hex => absurd (hiff.mpr hex) (by simp [h1f])⟩,
        fun _ => ⟨fun habs => ?_, fun hex => absurd (hemail.mpr hex) (by simp [h2f])⟩,
        fun _ _ => hreg⟩
      · rw [hreg] at habs
        cases habs
      · rw [hreg] at habs
        cases habs

/-- Witness for C3 at a concrete state: re-registering the stored username
"alice" under a different letter case and a fresh email still fails with the
"username taken" failure. -/
theorem register_checks_witness :
    register_user [aliceUser] ⟨"ALICE", "b@x.com", "pw123456"⟩ (fun s => s) 2 =
      Except.error usernameTakenError := by
  have h := register_checks [aliceUser] ⟨"ALICE", "b@x.com", "pw123456"⟩ (fun s => s) 2
    (by decide)
  exact h.1.mpr ⟨aliceUser, by decide, by decide⟩

/-- C4: every authentication failure is uniform: the login endpoint returns
the identical failure for an unknown username and for a wrong password, and
the identity resolver returns one identical failure for a bad signature, a
malformed payload, a passed expiry, a missing subject claim, and a valid
token whose subject user no longer exists. -/
theorem auth_failures_uniform (db dbLogin dbNo : List User) (s uname uname2 pwd : String)
    (user : User) (verify : String → String → Bool) (mkToken : String → String)
    (hs : ∀ x ∈ db, x.username ≠ s)
    (hu : dbLogin.find? (fun x => x.username == lower uname) = some user)
    (hv : verify pwd user.hashed_password = false)
    (hno : ∀ x ∈ dbNo, x.username ≠ lower uname2) :
    get_current_user DecodeResult.badSignature db = Except.error credentials_exception ∧
    get_current_user DecodeResult.malformedPayload db = Except.error credentials_exception ∧
    get_current_user DecodeResult.expired db = Except.error credentials_exception ∧
    get_current_user (DecodeResult.payload none) db = Except.error credentials_exception ∧
    get_current_user (DecodeResult.payload (some s)) db =
      Except.error credentials_exception ∧
    login_for_access_token dbNo uname2 pwd verify mkToken = Except.error loginError ∧
    login_for_access_token dbLogin uname pwd verify mkToken = Except.error loginError := by
  have hfind : db.find? (fun x => x.username == s) = none :=
    find?_none_of_all_false fun x hx => by simp [hs x hx]
  have hfind2 : dbNo.find? (fun x => x.username == lower uname2) = none :=
    find?_none_of_all_false fun x hx => by simp [hno x hx]
  refine ⟨rfl, rfl, rfl, rfl, ?_, ?_, ?_⟩
  · simp [get_current_user, hfind]
  · simp [login_for_access_token, hfind2]
  · simp [login_for_access_token, hu, hv]

/-- Witness for C4 at a concrete state: one stored user "alice"; an unknown
token subject, an unknown login username, and a wrong password for "ALICE"
(case-insensitive match on the stored user). -/
theorem auth_failures_uniform_witness :
    get_current_user DecodeResult.badSignature [aliceUser] =
      Except.error credentials_exception ∧
    get_current_user DecodeResult.malformedPayload [aliceUser] =
      Except.error credentials_exception ∧
    get_current_user DecodeResult.expired [aliceUser] =
      Except.error credentials_exception ∧
    get_current_user (DecodeResult.payload none) [aliceUser] =
      Except.error credentials_exception ∧
    get_current_user (DecodeResult.payload (some "bob")) [aliceUser] =
      Except.error credentials_exception ∧
    login_for_access_token [aliceUser] "carol" "pw" (fun a b => a == b) (fun s => s) =
      Except.error loginError ∧
    login_for_access_token [aliceUser] "ALICE" "wrong" (fun a b => a == b) (fun s => s) =
      Except.error loginError :=
  auth_failures_uniform [aliceUser] [aliceUser] [aliceUser] "bob" "ALICE" "carol" "wrong"
    aliceUser (fun a b => a == b) (fun s => s) (by decide) (by decide) (by decide)
    (by decide)

set_option maxRecDepth 10000 in
/-- C5 (failing input): `validate_title` transcribes the title rules the
model declares — it rejects an empty-after-strip or over-long title — but
`update_task` assigns the supplied fields with no validation (SQLModel table
models run no validator on assignment), so a partial update of the title
field stores an empty-after-strip title (and equally a 300-character one),
breaking the claimed all-reachable-states invariant. -/
theorem update_stores_unvalidated_title :
    validate_title "  " = Except.error "Title cannot be empty" ∧
    update_task [aliceTask] 1 1 { title := some "  " } 9 =
      Except.ok ([{ aliceTask with title := "  ", updated_at := 9 }],
        { aliceTask with title := "  ", updated_at := 9 }) ∧
    strLen (strip "  ") = 0 ∧
    validate_title (String.mk (List.replicate 300 'a')) =
      Except.error "Title must be less than 200 characters" ∧
    update_task [aliceTask] 1 1 { title := some (String.mk (List.replicate 300 'a')) } 9 =
      Except.ok ([{ aliceTask with title := String.mk (List.replicate 300 'a'), updated_at := 9 }],
        { aliceTask with title := String.mk (List.replicate 300 'a'), updated_at := 9 }) :=
  ⟨rfl, rfl, rfl, rfl, rfl⟩

/-- C6 (failing input): the `User` table model declares no profile columns,
so the profile-update handler persists nothing: after updating `full_name`
to "Alice Smith", the stored rows are unchanged and a subsequent read of the
profile returns `none` for `full_name`, not the value just written. -/
theorem profile_update_not_durable :
    update_user_profile [aliceUser] 1 { full_name := some "Alice Smith" } = [aliceUser] ∧
    ∀ u ∈ update_user_profile [aliceUser] 1 { full_name := some "Alice Smith" },
      (read_user_me u).full_name = none ∧ (read_user_me u).full_name ≠ some "Alice Smith" := by
  decide

/-- C8: a created task has `owner_id` equal to the id of the authenticated
caller, `is_completed` false, priority medium when none is supplied, and
`created_at`/`updated_at` set to the current time — for every request body
(the `TaskCreate` schema has no owner or completion field, so the caller
cannot set either). -/
theorem create_task_defaults (db : List Task) (body : TaskCreateBody)
    (uid now newId : Nat) :
    ∃ t : Task,
      create_task db body uid now newId = (db ++ [t], t) ∧
      t.owner_id = uid ∧
      t.is_completed = false ∧
      t.created_at = now ∧
      t.updated_at = now ∧
      t.title = body.title ∧
      (body.priority = none → t.priority = PriorityLevel.medium) := by
  refine ⟨{ id := newId,
            title := body.title,
            description := body.description,
            is_completed := false,
            priority := body.priority.getD PriorityLevel.medium,
            due_date := body.due_date,
            category := body.category,
            created_at := now,
            updated_at := now,
            owner_id := uid }, rfl, rfl, rfl, rfl, rfl, rfl, ?_⟩
  intro h
  simp [h]

/-- Witness for C8 at a concrete input: creating a task with body
`title = "Buy milk"` (no priority supplied) for user 1 at time 0. -/
theorem create_task_defaults_witness :
    ∃ t : Task,
      create_task [] { title := "Buy milk" } 1 0 5 = ([] ++ [t], t) ∧
      t.owner_id = 1 ∧
      t.is_completed = false ∧
      t.created_at = 0 ∧
      t.updated_at = 0 ∧
      t.title = "Buy milk" ∧
      (({ title := "Buy milk" } : TaskCreateBody).priority = none →
        t.priority = PriorityLevel.medium) :=
  create_task_defaults [] { title := "Buy milk" } 1 0 5

/-- C9: statistics are a pure aggregation over the current tasks of the owner:
`total` counts the tasks of the owner, `completed` counts those with the
completion flag set, `pending` is total minus completed, the per-priority
counts count the tasks of the owner at each of the four levels, and the four
counts sum to `total`.  `get_task_stats` is a pure function of the store:
it performs no insert, update or delete. -/
theorem stats_aggregation (db : List Task) (uid : Nat) :
    (get_task_stats db uid).total = (read_tasks db uid).length ∧
    (get_task_stats db uid).completed =
      ((read_tasks db uid).filter (fun t => t.is_completed)).length ∧
    (get_task_stats db uid).pending =
      (get_task_stats db uid).total - (get_task_stats db uid).completed ∧
    (get_task_stats db uid).urgent =
      ((read_tasks db uid).filter (fun t => t.priority == PriorityLevel.urgent)).length ∧
    (get_task_stats db uid).high =
      ((read_tasks db uid).filter (fun t => t.priority == PriorityLevel.high)).length ∧
    (get_task_stats db uid).medium =
      ((read_tasks db uid).filter (fun t => t.priority == PriorityLevel.medium)).length ∧
    (get_task_stats db uid).low =
      ((read_tasks db uid).filter (fun t => t.priority == PriorityLevel.low)).length ∧
    (get_task_stats db uid).urgent + (get_task_stats db uid).high +
      (get_task_stats db uid).medium + (get_task_stats db uid).low =
      (get_task_stats db uid).total := by
  refine ⟨rfl, rfl, rfl, rfl, rfl, rfl, rfl, ?_⟩
  exact priority_counts_partition (read_tasks db uid)

/-- C10: the email uniqueness check compares emails as exact strings, unlike
the case-insensitive username check: two registrations with distinct
usernames whose emails differ only in letter case both succeed, creating two
users. -/
theorem email_check_case_sensitive (u1 u2 : UserCreate) (hash : String → String)
    (id1 id2 : Nat)
    (hu : lower u1.username ≠ lower u2.username)
    (he : u1.email ≠ u2.email)
    (hcase : lower u1.email = lower u2.email) :
    ∃ r1 r2 : RegisterResponse,
      register_user [] u1 hash id1 =
        Except.ok ([{ id := id1,
                      username := lower u1.username,
                      email := u1.email,
                      hashed_password := hash u1.password }], r1) ∧
      register_user [{ id := id1,
                       username := lower u1.username,
                       email := u1.email,
                       hashed_password := hash u1.password }] u2 hash id2 =
        Except.ok ([{ id := id1,
                      username := lower u1.username,
                      email := u1.email,
                      hashed_password := hash u1.password },
                    { id := id2,
                      username := lower u2.username,
                      email := u2.email,
                      hashed_password := hash u2.password }], r2) := by
  refine ⟨{ message := "User registered successfully", username := lower u1.username },
          { message := "User registered successfully", username := lower u2.username },
          ?_, ?_⟩
  · simp [register_user]
  · simp [register_user, hu, he]

/-- Witness for C10 at a concrete input: usernames "alice" and "bob" with
emails "Alice@x.com" and "alice@x.com", which differ only in the case of the
local part. -/
theorem email_check_case_sensitive_witness :
    ∃ r1 r2 : RegisterResponse,
      register_user [] ⟨"alice", "Alice@x.com", "pw123456"⟩ (fun s => s) 1 =
        Except.ok ([{ id := 1,
                      username := lower "alice",
                      email := "Alice@x.com",
                      hashed_password := "pw123456" }], r1) ∧
      register_user [{ id := 1,
                       username := lower "alice",
                       email := "Alice@x.com",
                       hashed_password := "pw123456" }]
          ⟨"bob", "alice@x.com", "pw123456"⟩ (fun s => s) 2 =
        Except.ok ([{ id := 1,
                      username := lower "alice",
                      email := "Alice@x.com",
                      hashed_password := "pw123456" },
                    { id := 2,
                      username := lower "bob",
                      email := "alice@x.com",
                      hashed_password := "pw123456" }], r2) :=
  email_check_case_sensitive ⟨"alice", "Alice@x.com", "pw123456"⟩
    ⟨"bob", "alice@x.com", "pw123456"⟩ (fun s => s) 1 2 (by decide) (by decide) (by decide)

end TaskManager
